import Mathlib

/-!
Verification development for the desktop-pet repository.

We give a shallow embedding of the core modules:
* `src/core/animator.py`   — `AnimationState`, `AnimationController`
* `src/core/controller.py` — `PetController` (timers, feeding, sleep cycle, reminders)
* `src/core/events.py`     — `EventHandler` (mouse press classification, idle timer)
* `src/utils/notifier.py`  — `ReminderScheduler`
* `src/utils/config.py`    — `ConfigManager`

Qt timers are modelled by explicit millisecond countdowns inside the state:
a field `*_rem : Nat` holds the remaining milliseconds of a timer
(`0` = not pending); `QTimer.singleShot` callbacks are kept in a list of
`(remaining-ms, callback)` pairs.  `tick` advances the world by one
millisecond, firing every countdown that reaches its deadline, and
`advance n` iterates `tick` `n` times.  Signal emissions are accumulated
in an append-only `log`.
-/

/-- `AnimationState` enum from `src/core/animator.py`. -/
inductive AnimationState
  | idle | move | click | eat | sleepy | sleep
deriving DecidableEq, Repr

/-- State of `AnimationController` (`src/core/animator.py`).
`movies` is the set of states whose GIF resource existed at load time
(the keys of the Python `self.movies` dict); `current_movie` is the movie
object currently selected (identified by its state); `running` records
whether the current movie is playing. -/
structure AnimationController where
  movies : List AnimationState
  current_state : AnimationState
  current_movie : Option AnimationState
  running : Bool
deriving DecidableEq, Repr

/-- `AnimationController.__init__`: `current_state = IDLE`,
`current_movie = None`; `_load_animations` registers the states whose
files exist (passed here as `movies`). -/
def AnimationController.initial (movies : List AnimationState) : AnimationController :=
  { movies := movies, current_state := .idle, current_movie := none, running := false }

/-- `AnimationController.switch_to_state`.  Returns the new controller
state together with the list of `animation_changed` emissions (payloads).
Early-returns when `state == current_state`; when the state has no
registered movie it only logs an error and changes nothing. -/
def AnimationController.switch_to_state (state : AnimationState) (a : AnimationController) :
    AnimationController × List AnimationState :=
  if state = a.current_state then (a, [])
  else if state ∈ a.movies then
    ({ a with current_state := state, current_movie := some state, running := false }, [state])
  else
    (a, [])

/-- `AnimationController.start_animation`: starts the current movie if any. -/
def AnimationController.start_animation (a : AnimationController) : AnimationController :=
  if a.current_movie.isSome then { a with running := true } else a

/-- Signals emitted by `PetController` that the claims talk about. -/
inductive Sig
  | animation_changed (s : AnimationState)
  | feeding_finished
  | notification_triggered
deriving DecidableEq, Repr

/-- The `QTimer.singleShot` callbacks scheduled by `PetController`. -/
inductive Shot
  | return_to_idle
  | return_to_idle_from_sleepy
  | finish_feeding
deriving DecidableEq, Repr

/-- State of `PetController` (`src/core/controller.py`).  Timer fields
hold remaining milliseconds (`0` = not pending); `shots` holds the
pending `QTimer.singleShot` callbacks with their remaining delays. -/
structure PetController where
  animation_controller : AnimationController
  click_count : Nat
  click_reset_rem : Nat
  is_feeding : Bool
  sleepy_rem : Nat
  sleep_rem : Nat
  is_interaction_mode : Bool
  shots : List (Nat × Shot)
  log : List Sig
deriving DecidableEq, Repr

/-- `self.animation_controller.switch_to_state(st)` as seen from the
controller: forwards to the animator and logs the `animation_changed`
emissions (relayed as `state_changed` by `_on_animation_changed`). -/
def PetController.cswitch (st : AnimationState) (s : PetController) : PetController :=
  let p := AnimationController.switch_to_state st s.animation_controller
  { s with animation_controller := p.1, log := s.log ++ p.2.map Sig.animation_changed }

/-- `self.animation_controller.start_animation()`. -/
def PetController.cstart (s : PetController) : PetController :=
  { s with animation_controller := s.animation_controller.start_animation }

/-- `PetController._start_sleep_timers`: when neither interacting nor
feeding, stop both sleep timers and start `sleepy_timer` at 15000 ms. -/
def PetController.start_sleep_timers (s : PetController) : PetController :=
  if !s.is_interaction_mode && !s.is_feeding then
    { s with sleepy_rem := 15000, sleep_rem := 0 }
  else s

/-- `PetController._reset_sleep_timers`: stop both timers, then restart
them (via `_start_sleep_timers`) when neither interacting nor feeding. -/
def PetController.reset_sleep_timers (s : PetController) : PetController :=
  let t := { s with sleepy_rem := 0, sleep_rem := 0 }
  if !t.is_interaction_mode && !t.is_feeding then t.start_sleep_timers else t

/-- `PetController._return_to_idle`. -/
def PetController.return_to_idle (s : PetController) : PetController :=
  if !s.is_interaction_mode && !s.is_feeding then
    ((s.cswitch .idle).cstart).start_sleep_timers
  else s

/-- `PetController._reset_click_count`. -/
def PetController.reset_click_count (s : PetController) : PetController :=
  { s with click_count := 0 }

/-- `PetController._on_click` (the position argument plays no role in the
state change and is dropped). -/
def PetController.on_click (s : PetController) : PetController :=
  let s := s.reset_sleep_timers
  if s.is_feeding then s
  else
    let s := { s with click_count := s.click_count + 1, click_reset_rem := 1000 }
    let s :=
      if 2 ≤ s.click_count then
        { s with log := s.log ++ [Sig.notification_triggered],
                 click_count := 0, click_reset_rem := 0 }
      else s
    let s := (s.cswitch .click).cstart
    { s with shots := s.shots ++ [(2000, Shot.return_to_idle)] }

/-- `PetController._on_drag_start`. -/
def PetController.on_drag_start (s : PetController) : PetController :=
  let s := s.reset_sleep_timers
  let s := (s.cswitch .move).cstart
  { s with is_interaction_mode := true }

/-- `PetController._on_drag_finish`. -/
def PetController.on_drag_finish (s : PetController) : PetController :=
  let s := { s with is_interaction_mode := false }
  { s with shots := s.shots ++ [(1000, Shot.return_to_idle)] }

/-- `PetController._start_sleepy` (the `sleepy_timer` callback). -/
def PetController.start_sleepy (s : PetController) : PetController :=
  if !s.is_interaction_mode && !s.is_feeding then
    let s := (s.cswitch .sleepy).cstart
    { s with shots := s.shots ++ [(2000, Shot.return_to_idle_from_sleepy)] }
  else s

/-- `PetController._return_to_idle_from_sleepy`. -/
def PetController.return_to_idle_from_sleepy (s : PetController) : PetController :=
  if !s.is_interaction_mode && !s.is_feeding then
    let s := (s.cswitch .idle).cstart
    { s with sleep_rem := 15000 }
  else s

/-- `PetController._start_sleep` (the `sleep_timer` callback). -/
def PetController.start_sleep (s : PetController) : PetController :=
  if !s.is_interaction_mode && !s.is_feeding then (s.cswitch .sleep).cstart else s

/-- `PetController.feed_pet`.  Note the order in the source: sleep timers
are reset *before* `is_feeding` is set, and a fresh 3000 ms single-shot
`_finish_feeding` is scheduled unconditionally. -/
def PetController.feed_pet (s : PetController) : PetController :=
  let s := s.reset_sleep_timers
  let s := { s with is_feeding := true }
  let s := (s.cswitch .eat).cstart
  let s := { s with shots := s.shots ++ [(3000, Shot.finish_feeding)] }
  { s with log := s.log ++ [Sig.notification_triggered] }

/-- `PetController._finish_feeding`. -/
def PetController.finish_feeding (s : PetController) : PetController :=
  let s := { s with is_feeding := false, log := s.log ++ [Sig.feeding_finished] }
  s.return_to_idle

/-- Dispatch a fired single-shot callback. -/
def PetController.run_shot : Shot → PetController → PetController
  | .return_to_idle, s => s.return_to_idle
  | .return_to_idle_from_sleepy, s => s.return_to_idle_from_sleepy
  | .finish_feeding, s => s.finish_feeding

/-- Advance every pending single-shot by one millisecond; return the
remaining shots and (in schedule order) the callbacks that fire now. -/
def tick_shots : List (Nat × Shot) → List (Nat × Shot) × List Shot
  | [] => ([], [])
  | (n, c) :: rest =>
    let p := tick_shots rest
    if n ≤ 1 then (p.1, c :: p.2) else ((n - 1, c) :: p.1, p.2)

/-- One millisecond of the Qt event loop for `PetController`: countdowns
decrease by one; a countdown that hits its deadline fires its callback. -/
def PetController.tick (s : PetController) : PetController :=
  let p := tick_shots s.shots
  let s1 : PetController :=
    { s with sleepy_rem := s.sleepy_rem - 1, sleep_rem := s.sleep_rem - 1,
             click_reset_rem := s.click_reset_rem - 1, shots := p.1 }
  let s2 := if s.click_reset_rem = 1 then s1.reset_click_count else s1
  let s3 := if s.sleepy_rem = 1 then s2.start_sleepy else s2
  let s4 := if s.sleep_rem = 1 then s3.start_sleep else s3
  p.2.foldl (fun st c => PetController.run_shot c st) s4

/-- `n` milliseconds of the event loop with no external input. -/
def PetController.advance : Nat → PetController → PetController
  | 0, s => s
  | n + 1, s => PetController.advance n s.tick

/-- `PetController.__init__` (all six animation assets present, as the
launcher `src/main.py` requires): construct the sub-modules, switch to
`IDLE` (a no-op, since the animator already starts at `IDLE`), start the
animation (a no-op, `current_movie` is still `None`), then
`_start_sleep_timers`. -/
def PetController.initial : PetController :=
  let s : PetController :=
    { animation_controller :=
        AnimationController.initial [.idle, .move, .click, .eat, .sleepy, .sleep],
      click_count := 0, click_reset_rem := 0, is_feeding := false,
      sleepy_rem := 0, sleep_rem := 0, is_interaction_mode := false,
      shots := [], log := [] }
  let s := (s.cswitch .idle).cstart
  s.start_sleep_timers

/-- Number of `feeding_finished` emissions in a log. -/
def count_feeding_finished (l : List Sig) : Nat :=
  (l.filter (· = Sig.feeding_finished)).length

/-- Signals emitted by `EventHandler` (`src/core/events.py`). -/
inductive ESig
  | click_detected (p : Int × Int)
  | double_click (p : Int × Int)
  | right_click (p : Int × Int)
  | drag_started (p : Int × Int)
  | drag_moved (p : Int × Int)
  | drag_finished (p : Int × Int)
  | hover_enter
  | hover_leave
  | idle_timeout
deriving DecidableEq, Repr

/-- Mouse buttons distinguished by `handle_mouse_press`. -/
inductive MouseButton
  | left | right
deriving DecidableEq, Repr

/-- State of `EventHandler` (`src/core/events.py`).  Positions are integer
pixel coordinates; times are integer milliseconds.  `idle_rem` /
`hover_rem` hold the remaining milliseconds of the idle and hover timers
(`0` = not pending).  The idle `QTimer` is *not* single-shot in the
source, so on firing it restarts at `idle_timeout_ms`; the hover timer is
single-shot.  (`last_activity_time` is recorded by the source but never
read by any logic modelled here, so it is omitted.) -/
structure EventHandler where
  is_dragging : Bool
  drag_start_position : Option (Int × Int)
  last_position : Option (Int × Int)
  click_threshold : Int
  double_click_threshold : Int
  last_click_time : Int
  last_click_position : Option (Int × Int)
  idle_rem : Nat
  idle_timeout_ms : Nat
  hover_rem : Nat
  hover_delay : Nat
  log : List ESig
deriving DecidableEq, Repr

/-- `EventHandler.__init__`.  The idle timer is constructed but not
started. -/
def EventHandler.initial : EventHandler :=
  { is_dragging := false, drag_start_position := none, last_position := none,
    click_threshold := 5, double_click_threshold := 300,
    last_click_time := 0, last_click_position := none,
    idle_rem := 0, idle_timeout_ms := 30000,
    hover_rem := 0, hover_delay := 500, log := [] }

/-- `EventHandler._update_activity`: restart the idle countdown
(stop it if active, then start it at `idle_timeout_ms`). -/
def EventHandler.update_activity (e : EventHandler) : EventHandler :=
  { e with idle_rem := e.idle_timeout_ms }

/-- Squared Euclidean distance.  The source compares the float distance
`sqrt dx2py2` with a threshold `t`; for integer coordinates and `t ≥ 0`
this is equivalent to comparing the squares, which is what we embed. -/
def dist_sq (p q : Int × Int) : Int :=
  (p.1 - q.1) * (p.1 - q.1) + (p.2 - q.2) * (p.2 - q.2)

/-- `EventHandler.handle_mouse_press` with the press position and the
current time in milliseconds.  On a detected double click the handler
emits and returns immediately: the stored press record is *not*
updated. -/
def EventHandler.handle_mouse_press (btn : MouseButton) (pos : Int × Int) (now : Int)
    (e : EventHandler) : EventHandler :=
  let e := e.update_activity
  match btn with
  | .left =>
    match e.last_click_position with
    | some lp =>
      if dist_sq pos lp < e.click_threshold * e.click_threshold ∧
          now - e.last_click_time < e.double_click_threshold then
        { e with log := e.log ++ [ESig.double_click pos] }
      else
        { e with last_click_time := now, last_click_position := some pos,
                 drag_start_position := some pos, last_position := some pos,
                 log := e.log ++ [ESig.click_detected pos] }
    | none =>
      { e with last_click_time := now, last_click_position := some pos,
               drag_start_position := some pos, last_position := some pos,
               log := e.log ++ [ESig.click_detected pos] }
  | .right => { e with log := e.log ++ [ESig.right_click pos] }

/-- `EventHandler.handle_mouse_move`. -/
def EventHandler.handle_mouse_move (pos : Int × Int) (e : EventHandler) : EventHandler :=
  match e.drag_start_position with
  | none => e
  | some origin =>
    let e := e.update_activity
    let e :=
      if e.is_dragging = false ∧
          e.click_threshold * e.click_threshold < dist_sq pos origin then
        { e with is_dragging := true, log := e.log ++ [ESig.drag_started origin] }
      else e
    if e.is_dragging then
      { e with log := e.log ++ [ESig.drag_moved pos], last_position := some pos }
    else e

/-- `EventHandler.handle_mouse_release`. -/
def EventHandler.handle_mouse_release (pos : Int × Int) (e : EventHandler) : EventHandler :=
  let e := if e.is_dragging then { e with log := e.log ++ [ESig.drag_finished pos] } else e
  let e := { e with is_dragging := false, drag_start_position := none, last_position := none }
  e.update_activity

/-- `EventHandler.handle_key_press` (the key itself is only logged). -/
def EventHandler.handle_key_press (e : EventHandler) : EventHandler :=
  e.update_activity

/-- `EventHandler.start_idle_detection`. -/
def EventHandler.start_idle_detection (e : EventHandler) : EventHandler :=
  { e with idle_rem := e.idle_timeout_ms }

/-- `EventHandler.stop_idle_detection`. -/
def EventHandler.stop_idle_detection (e : EventHandler) : EventHandler :=
  { e with idle_rem := 0 }

/-- One millisecond for `EventHandler`: the hover timer is single-shot;
the idle timer is repeating (`QTimer` default), so firing emits
`idle_timeout` and rearms itself at `idle_timeout_ms`. -/
def EventHandler.tick (e : EventHandler) : EventHandler :=
  let e1 := { e with idle_rem := e.idle_rem - 1, hover_rem := e.hover_rem - 1 }
  let e2 := if e.hover_rem = 1 then { e1 with log := e1.log ++ [ESig.hover_enter] } else e1
  if e.idle_rem = 1 then
    { e2 with idle_rem := e2.idle_timeout_ms, log := e2.log ++ [ESig.idle_timeout] }
  else e2

/-- `n` milliseconds with no external events for `EventHandler`. -/
def EventHandler.advance : Nat → EventHandler → EventHandler
  | 0, e => e
  | n + 1, e => EventHandler.advance n e.tick

/-- Number of `idle_timeout` emissions in a log. -/
def count_idle_timeout (l : List ESig) : Nat :=
  (l.filter (· = ESig.idle_timeout)).length

/-- `PetController._on_reminder` as a pure step: given the message list
and the current index, return the emitted message and the next index.
The source indexes `messages[current_index]`, which under the in-bounds
invariant coincides with `getD`. -/
def on_reminder (msgs : List String) (idx : Nat) : String × Nat :=
  (msgs.getD idx "", (idx + 1) % msgs.length)

/-- Messages emitted by `n` consecutive reminder firings. -/
def reminder_run (msgs : List String) (idx : Nat) : Nat → List String
  | 0 => []
  | n + 1 => (on_reminder msgs idx).1 :: reminder_run msgs (on_reminder msgs idx).2 n

/-- Indices used by `n` consecutive reminder firings over a list of
length `len`. -/
def reminder_indices (len idx : Nat) : Nat → List Nat
  | 0 => []
  | n + 1 => idx :: reminder_indices len ((idx + 1) % len) n

/-- One named reminder of `ReminderScheduler` (`src/utils/notifier.py`). -/
structure Reminder where
  title : String
  messages : List String
  interval : Nat
  current_index : Nat
deriving DecidableEq, Repr

/-- The `self.reminders` map of `ReminderScheduler`. -/
def ReminderScheduler : Type := String → Option Reminder

/-- `ReminderScheduler._trigger_reminder`: if the named reminder exists,
emit `(title, messages[current_index])` and advance only that reminder's
index modulo its own message-list length. -/
def trigger_reminder (name : String) (sc : ReminderScheduler) :
    ReminderScheduler × Option (String × String) :=
  match sc name with
  | some r =>
    (fun n => if n = name then
        some { r with current_index := (r.current_index + 1) % r.messages.length }
      else sc n,
     some (r.title, r.messages.getD r.current_index ""))
  | none => (sc, none)

/-- JSON values appearing in the settings file (`src/utils/config.py`). -/
inductive ConfigValue
  | int (n : Int)
  | bool (b : Bool)
  | str (s : String)
  | strList (l : List String)
deriving DecidableEq, Repr

/-- A flat JSON object: a partial map from keys to values. -/
def Config : Type := String → Option ConfigValue

/-- The six built-in reminder messages of `ConfigManager.default_config`. -/
def default_reminder_messages : List String :=
  [ "該休息一下眼睛了！", "記得保持良好的坐姿哦～", "喝點水，保持水分！",
    "起來走動走動吧！", "深呼吸，放松一下～", "記得活動手腕和頸部！" ]

/-- `ConfigManager.default_config`. -/
def default_config : Config := fun k =>
  if k = "pet_size" then some (.int 150)
  else if k = "reminder_interval" then some (.int 30)
  else if k = "reminder_enabled" then some (.bool false)
  else if k = "idle_enabled" then some (.bool true)
  else if k = "sound_enabled" then some (.bool true)
  else if k = "font_color" then some (.str "#FFFFFF")
  else if k = "border_color" then some (.str "#000000")
  else if k = "reminder_messages" then some (.strList default_reminder_messages)
  else none

/-- Python `dict.update`: keys of `upd` override `base`, all other keys
of `base` are kept. -/
def dict_update (base upd : Config) : Config := fun k =>
  match upd k with
  | some v => some v
  | none => base k

/-- `ConfigManager.load_config`: a readable file `some m` is merged over
the defaults (`merged = default.copy(); merged.update(config)`); a
missing or malformed file (`none`) falls back to the full default set. -/
def load_config (file : Option Config) : Config :=
  match file with
  | some m => dict_update default_config m
  | none => default_config

/-- `ConfigManager.save_config`: the whole working map is written out and
becomes the stored file. -/
def save_config (c : Config) : Option Config := some c

/-- `ConfigManager.get(key, default)`. -/
def config_get (c : Config) (k : String) (dflt : ConfigValue) : ConfigValue :=
  (c k).getD dflt

/-- `config_manager.get` specialised to an integer default, as used by
`PetController._load_settings`. -/
def config_get_int (c : Config) (k : String) (d : Int) : Int :=
  match c k with
  | some (.int n) => n
  | _ => d

/-- `config_manager.get` specialised to a boolean default. -/
def config_get_bool (c : Config) (k : String) (d : Bool) : Bool :=
  match c k with
  | some (.bool b) => b
  | _ => d

/-- `config_manager.get` specialised to a string-list default. -/
def config_get_str_list (c : Config) (k : String) (d : List String) : List String :=
  match c k with
  | some (.strList l) => l
  | _ => d

/-- `PetController._load_settings`: the orchestrator's working copy
(reminder interval in milliseconds, live message list, sound flag). -/
def load_settings (c : Config) : Int × List String × Bool :=
  (config_get_int c ("reminder_interval") 30 * 60 * 1000,
   config_get_str_list c ("reminder_messages") default_reminder_messages,
   config_get_bool c ("sound_enabled") true)

/-- The update pushed in the round-trip scenario of the spec:
`{pet_size: 200, sound_enabled: false}`. -/
def example_update : Config := fun k =>
  if k = "pet_size" then some (.int 200)
  else if k = "sound_enabled" then some (.bool false)
  else none

/-- Subtract `n` milliseconds from every countdown of a `PetController`
state (meaningful when no countdown fires strictly within those `n`
milliseconds). -/
def PetController.shift (n : Nat) (s : PetController) : PetController :=
  { s with sleepy_rem := s.sleepy_rem - n, sleep_rem := s.sleep_rem - n,
           click_reset_rem := s.click_reset_rem - n,
           shots := s.shots.map (fun p => (p.1 - n, p.2)) }

/-- No countdown of `s` fires during the next `n` milliseconds: every
pending countdown strictly exceeds `n`. -/
abbrev PetController.quiet (n : Nat) (s : PetController) : Prop :=
  (s.sleepy_rem = 0 ∨ n < s.sleepy_rem) ∧
  (s.sleep_rem = 0 ∨ n < s.sleep_rem) ∧
  (s.click_reset_rem = 0 ∨ n < s.click_reset_rem) ∧
  ∀ p ∈ s.shots, n < p.1

/-- The six registered animation states when all assets are present. -/
def all_movies : List AnimationState := [.idle, .move, .click, .eat, .sleepy, .sleep]

/-- Waypoint: the controller idling with `sleepy_timer` at `m` ms.
`PetController.initial = S_wait 15000`. -/
def S_wait (m : Nat) : PetController :=
  ⟨⟨all_movies, .idle, none, false⟩, 0, 0, false, m, 0, false, [], []⟩

/-- Waypoint: state reached 15000 ms after construction — the Sleepy
animation playing, the 2000 ms return-to-idle single-shot pending. -/
def S_sleepy : PetController :=
  ⟨⟨all_movies, .sleepy, some (.sleepy), true⟩,
   0, 0, false, 0, 0, false, [(2000, .return_to_idle_from_sleepy)],
   [.animation_changed (.sleepy)]⟩

/-- Waypoint: state reached 17000 ms after construction — back to Idle
with `sleep_timer` armed at 15000 ms. -/
def S_idle2 : PetController :=
  ⟨⟨all_movies, .idle, some (.idle), true⟩,
   0, 0, false, 0, 15000, false, [],
   [.animation_changed (.sleepy), .animation_changed (.idle)]⟩

/-- Waypoint: state reached 32000 ms after construction — asleep, no
countdown pending. -/
def S_sleep : PetController :=
  ⟨⟨all_movies, .sleep, some (.sleep), true⟩,
   0, 0, false, 0, 0, false, [],
   [.animation_changed (.sleepy), .animation_changed (.idle),
    .animation_changed (.sleep)]⟩

/-- Waypoint: state immediately after `_on_click` hits a waiting idle
state (whatever the sleepy countdown stood at). -/
def C_click0 : PetController :=
  ⟨⟨all_movies, .click, some (.click), true⟩,
   1, 1000, false, 15000, 0, false, [(2000, .return_to_idle)],
   [.animation_changed (.click)]⟩

/-- Waypoint: 1000 ms after the click (`click_reset_timer` fired). -/
def C_click1 : PetController :=
  ⟨⟨all_movies, .click, some (.click), true⟩,
   0, 0, false, 14000, 0, false, [(1000, .return_to_idle)],
   [.animation_changed (.click)]⟩

/-- Waypoint: 2000 ms after the click (`_return_to_idle` fired and
re-armed the sleepy timer). -/
def C_click2 : PetController :=
  ⟨⟨all_movies, .idle, some (.idle), true⟩,
   0, 0, false, 15000, 0, false, [],
   [.animation_changed (.click), .animation_changed (.idle)]⟩

/-- Waypoint: state immediately after `_on_drag_start` hits a waiting
idle state.  Note that the sleepy timer is re-armed *before*
`is_interaction_mode` is set. -/
def D_drag0 : PetController :=
  ⟨⟨all_movies, .move, some (.move), true⟩,
   0, 0, false, 15000, 0, true, [], [.animation_changed (.move)]⟩

/-- Waypoint: 15000 ms into an uninterrupted drag — the sleepy timer
fired but `_start_sleepy` was blocked by `is_interaction_mode`. -/
def D_drag1 : PetController :=
  ⟨⟨all_movies, .move, some (.move), true⟩,
   0, 0, false, 0, 0, true, [], [.animation_changed (.move)]⟩

/-- Waypoint: click arriving 500 ms into the Sleepy animation. -/
def T_click : PetController :=
  ⟨⟨all_movies, .click, some (.click), true⟩,
   1, 1000, false, 15000, 0, false,
   [(1500, .return_to_idle_from_sleepy), (2000, .return_to_idle)],
   [.animation_changed (.sleepy), .animation_changed (.click)]⟩

/-- Waypoint: 1000 ms after `T_click` (`click_reset_timer` fired). -/
def T_click1 : PetController :=
  ⟨⟨all_movies, .click, some (.click), true⟩,
   0, 0, false, 14000, 0, false,
   [(500, .return_to_idle_from_sleepy), (1000, .return_to_idle)],
   [.animation_changed (.sleepy), .animation_changed (.click)]⟩

/-- Waypoint: 1500 ms after `T_click`: `_return_to_idle_from_sleepy`
fired and armed `sleep_timer` while `sleepy_timer` is still pending —
both sleep-cycle timers pending at once. -/
def T_both : PetController :=
  ⟨⟨all_movies, .idle, some (.idle), true⟩,
   0, 0, false, 13500, 15000, false, [(500, .return_to_idle)],
   [.animation_changed (.sleepy), .animation_changed (.click),
    .animation_changed (.idle)]⟩

/-- Waypoint: state right after `feed_pet` on the freshly constructed
controller.  The sleepy timer is still pending (it was re-armed by
`_reset_sleep_timers` before `is_feeding` was set). -/
def F_feed : PetController :=
  ⟨⟨all_movies, .eat, some (.eat), true⟩,
   0, 0, true, 15000, 0, false, [(3000, .finish_feeding)],
   [.animation_changed (.eat), .notification_triggered]⟩

/-- Waypoint: a second `feed_pet` 1000 ms into the first feeding: two
`_finish_feeding` single-shots are now pending. -/
def F_feed2 : PetController :=
  ⟨⟨all_movies, .eat, some (.eat), true⟩,
   0, 0, true, 0, 0, false,
   [(2000, .finish_feeding), (3000, .finish_feeding)],
   [.animation_changed (.eat), .notification_triggered, .notification_triggered]⟩

/-- Waypoint: 2000 ms after `F_feed2` — the first `_finish_feeding`
fired (one `feeding_finished` emitted), the second is still pending. -/
def F_feed3 : PetController :=
  ⟨⟨all_movies, .idle, some (.idle), true⟩,
   0, 0, false, 15000, 0, false, [(1000, .finish_feeding)],
   [.animation_changed (.eat), .notification_triggered, .notification_triggered,
    .feeding_finished, .animation_changed (.idle)]⟩

/-- Waypoint: 3000 ms after `F_feed2` — both `_finish_feeding` callbacks
have fired: `feeding_finished` was emitted twice. -/
def F_feed4 : PetController :=
  ⟨⟨all_movies, .idle, some (.idle), true⟩,
   0, 0, false, 15000, 0, false, [],
   [.animation_changed (.eat), .notification_triggered, .notification_triggered,
    .feeding_finished, .animation_changed (.idle), .feeding_finished]⟩

/-- Waypoint: the event handler with idle detection armed at 30000 ms and
log `L` (the state `EventHandler.initial.start_idle_detection` reaches at
every multiple of 30000 ms without activity). -/
def E_armed (L : List ESig) : EventHandler :=
  ⟨false, none, none, 5, 300, 0, none, 30000, 30000, 0, 500, L⟩

/-- Waypoint: 3000 ms after a single `feed_pet`: exactly one
`feeding_finished`. -/
def F_single : PetController :=
  ⟨⟨all_movies, .idle, some (.idle), true⟩,
   0, 0, false, 15000, 0, false, [],
   [.animation_changed (.eat), .notification_triggered, .feeding_finished,
    .animation_changed (.idle)]⟩

theorem PetController.advance_add (a b : Nat) (s : PetController) :
    PetController.advance (a + b) s = PetController.advance b (PetController.advance a s) := by
  induction a generalizing s with
  | zero => simp [PetController.advance]
  | succ n ih =>
    rw [show n + 1 + b = (n + b) + 1 by omega]
    show PetController.advance (n + b) s.tick = _
    rw [ih]
    rfl

theorem tick_shots_quiet (l : List (Nat × Shot)) (h : ∀ p ∈ l, 1 < p.1) :
    tick_shots l = (l.map (fun p => (p.1 - 1, p.2)), []) := by
  induction l with
  | nil => rfl
  | cons a t ih =>
    obtain ⟨n, c⟩ := a
    have hn : 1 < n := h (n, c) (by simp)
    have ht : ∀ p ∈ t, 1 < p.1 := fun p hp => h p (List.mem_cons_of_mem _ hp)
    simp only [tick_shots, ih ht, if_neg (by omega : ¬ n ≤ 1), List.map_cons]

theorem PetController.tick_quiet (s : PetController) (h : s.quiet 1) :
    s.tick = s.shift 1 := by
  obtain ⟨h1, h2, h3, h4⟩ := h
  have e1 : ¬ s.click_reset_rem = 1 := by rcases h3 with h | h <;> omega
  have e2 : ¬ s.sleepy_rem = 1 := by rcases h1 with h | h <;> omega
  have e3 : ¬ s.sleep_rem = 1 := by rcases h2 with h | h <;> omega
  simp only [PetController.tick, PetController.shift, tick_shots_quiet _ h4,
    if_neg e1, if_neg e2, if_neg e3, List.foldl_nil]

theorem PetController.quiet_mono (m n : Nat) (s : PetController) (hmn : m ≤ n)
    (h : s.quiet n) : s.quiet m := by
  obtain ⟨h1, h2, h3, h4⟩ := h
  exact ⟨by omega, by omega, by omega, fun p hp => by have := h4 p hp; omega⟩

theorem PetController.quiet_shift (n : Nat) (s : PetController) (h : s.quiet (n + 1)) :
    (s.shift 1).quiet n := by
  obtain ⟨h1, h2, h3, h4⟩ := h
  refine ⟨?_, ?_, ?_, ?_⟩
  · rcases h1 with h | h
    · exact Or.inl (by simp [PetController.shift, h])
    · exact Or.inr (by simp [PetController.shift]; omega)
  · rcases h2 with h | h
    · exact Or.inl (by simp [PetController.shift, h])
    · exact Or.inr (by simp [PetController.shift]; omega)
  · rcases h3 with h | h
    · exact Or.inl (by simp [PetController.shift, h])
    · exact Or.inr (by simp [PetController.shift]; omega)
  · intro p hp
    simp only [PetController.shift, List.mem_map] at hp
    obtain ⟨q, hq, rfl⟩ := hp
    have := h4 q hq
    simp
    omega

theorem PetController.shift_shift (m n : Nat) (s : PetController) :
    (s.shift m).shift n = s.shift (m + n) := by
  obtain ⟨ac, c1, c2, fe, sy, sl, im, sh, lg⟩ := s
  simp only [PetController.shift, List.map_map, Nat.sub_sub]
  congr 1
  exact List.map_congr_left (fun p _ => by simp [Function.comp, Nat.sub_sub])

theorem PetController.shift_zero (s : PetController) : s.shift 0 = s := by
  obtain ⟨ac, c1, c2, fe, sy, sl, im, sh, lg⟩ := s
  simp [PetController.shift]

theorem PetController.advance_quiet (n : Nat) (s : PetController) (h : s.quiet n) :
    PetController.advance n s = s.shift n := by
  induction n generalizing s with
  | zero => rw [PetController.shift_zero]; rfl
  | succ n ih =>
    have h1 : s.quiet 1 := PetController.quiet_mono 1 (n + 1) s (by omega) h
    show PetController.advance n s.tick = _
    rw [PetController.tick_quiet s h1, ih _ (PetController.quiet_shift n s h),
      PetController.shift_shift, Nat.add_comm]

theorem PetController.tick_fix (s : PetController) (h1 : s.sleepy_rem = 0)
    (h2 : s.sleep_rem = 0) (h3 : s.click_reset_rem = 0) (h4 : s.shots = []) :
    s.tick = s := by
  obtain ⟨ac, c1, c2, fe, sy, sl, im, sh, lg⟩ := s
  simp only at h1 h2 h3 h4
  subst h1 h2 h3 h4
  rfl

theorem PetController.advance_fix (n : Nat) (s : PetController) (h1 : s.sleepy_rem = 0)
    (h2 : s.sleep_rem = 0) (h3 : s.click_reset_rem = 0) (h4 : s.shots = []) :
    PetController.advance n s = s := by
  induction n with
  | zero => rfl
  | succ n ih =>
    show PetController.advance n s.tick = s
    rw [PetController.tick_fix s h1 h2 h3 h4, ih]

theorem PetController.shift_anim (n : Nat) (s : PetController) :
    (s.shift n).animation_controller = s.animation_controller := rfl

theorem PetController.shift_sleep_rem (n : Nat) (s : PetController) :
    (s.shift n).sleep_rem = s.sleep_rem - n := rfl

theorem initial_eq_wait : PetController.initial = S_wait 15000 := rfl

theorem adv_init_sleepy : PetController.advance 15000 PetController.initial = S_sleepy := by
  rw [show (15000 : Nat) = 14999 + 1 from rfl, PetController.advance_add,
      PetController.advance_quiet 14999 _ (by decide)]
  decide

theorem adv_sleepy_idle2 : PetController.advance 2000 S_sleepy = S_idle2 := by
  rw [show (2000 : Nat) = 1999 + 1 from rfl, PetController.advance_add,
      PetController.advance_quiet 1999 _ (by decide)]
  decide

theorem adv_idle2_sleep : PetController.advance 15000 S_idle2 = S_sleep := by
  rw [show (15000 : Nat) = 14999 + 1 from rfl, PetController.advance_add,
      PetController.advance_quiet 14999 _ (by decide)]
  decide

theorem adv_wait (k : Nat) (hk : k < 15000) :
    PetController.advance k PetController.initial = S_wait (15000 - k) := by
  rw [initial_eq_wait, PetController.advance_quiet k _
    ⟨Or.inr (by show k < 15000; omega), Or.inl rfl, Or.inl rfl,
      by intro p hp; simp [S_wait] at hp⟩]
  simp [S_wait, PetController.shift]

theorem onclick_wait (m : Nat) : (S_wait m).on_click = C_click0 := rfl

theorem ondrag_wait (m : Nat) : (S_wait m).on_drag_start = D_drag0 := rfl

theorem adv_click0 : PetController.advance 1000 C_click0 = C_click1 := by
  rw [show (1000 : Nat) = 999 + 1 from rfl, PetController.advance_add,
      PetController.advance_quiet 999 _ (by decide)]
  decide

theorem adv_click1 : PetController.advance 1000 C_click1 = C_click2 := by
  rw [show (1000 : Nat) = 999 + 1 from rfl, PetController.advance_add,
      PetController.advance_quiet 999 _ (by decide)]
  decide

theorem adv_drag0 : PetController.advance 15000 D_drag0 = D_drag1 := by
  rw [show (15000 : Nat) = 14999 + 1 from rfl, PetController.advance_add,
      PetController.advance_quiet 14999 _ (by decide)]
  decide

theorem onclick_sleepy_shift : (PetController.shift 500 S_sleepy).on_click = T_click := rfl

theorem adv_tclick : PetController.advance 1000 T_click = T_click1 := by
  rw [show (1000 : Nat) = 999 + 1 from rfl, PetController.advance_add,
      PetController.advance_quiet 999 _ (by decide)]
  decide

theorem adv_tclick1 : PetController.advance 500 T_click1 = T_both := by
  rw [show (500 : Nat) = 499 + 1 from rfl, PetController.advance_add,
      PetController.advance_quiet 499 _ (by decide)]
  decide

theorem feed_init : PetController.initial.feed_pet = F_feed := rfl

theorem feed_feed : (PetController.shift 1000 F_feed).feed_pet = F_feed2 := rfl

theorem adv_feed2 : PetController.advance 2000 F_feed2 = F_feed3 := by
  rw [show (2000 : Nat) = 1999 + 1 from rfl, PetController.advance_add,
      PetController.advance_quiet 1999 _ (by decide)]
  decide

theorem adv_feed3 : PetController.advance 1000 F_feed3 = F_feed4 := by
  rw [show (1000 : Nat) = 999 + 1 from rfl, PetController.advance_add,
      PetController.advance_quiet 999 _ (by decide)]
  decide

theorem adv_feed_single : PetController.advance 3000 F_feed = F_single := by
  rw [show (3000 : Nat) = 2999 + 1 from rfl, PetController.advance_add,
      PetController.advance_quiet 2999 _ (by decide)]
  decide

theorem click_branch_state (j : Nat) (hj : j ≤ 15000) :
    (PetController.advance j C_click0).animation_controller.current_state = .click ∨
    (PetController.advance j C_click0).animation_controller.current_state = .idle := by
  rcases Nat.lt_or_ge j 1000 with h1 | h1
  · left
    rw [PetController.advance_quiet j _
      ⟨Or.inr (by show j < 15000; omega), Or.inl rfl, Or.inr (by show j < 1000; omega),
        by intro p hp
           rw [show C_click0.shots = [(2000, Shot.return_to_idle)] from rfl] at hp
           rw [List.mem_singleton.mp hp]
           show j < 2000; omega⟩]
    rfl
  · rcases Nat.lt_or_ge j 2000 with h2 | h2
    · left
      rw [show j = 1000 + (j - 1000) by omega, PetController.advance_add, adv_click0,
        PetController.advance_quiet (j - 1000) _
          ⟨Or.inr (by show j - 1000 < 14000; omega), Or.inl rfl, Or.inl rfl,
            by intro p hp
               rw [show C_click1.shots = [(1000, Shot.return_to_idle)] from rfl] at hp
               rw [List.mem_singleton.mp hp]
               show j - 1000 < 1000; omega⟩]
      rfl
    · right
      rw [show j = 1000 + (1000 + (j - 2000)) by omega, PetController.advance_add, adv_click0,
        PetController.advance_add, adv_click1,
        PetController.advance_quiet (j - 2000) _
          ⟨Or.inr (by show j - 2000 < 15000; omega), Or.inl rfl, Or.inl rfl,
            by intro p hp; simp [C_click2] at hp⟩]
      rfl

theorem drag_branch_state (j : Nat) (hj : j ≤ 15000) :
    (PetController.advance j D_drag0).animation_controller.current_state = .move := by
  rcases Nat.lt_or_ge j 15000 with h1 | h1
  · rw [PetController.advance_quiet j _
      ⟨Or.inr (by show j < 15000; omega), Or.inl rfl, Or.inl rfl,
        by intro p hp; simp [D_drag0] at hp⟩]
    rfl
  · rw [show j = 15000 by omega, adv_drag0]
    rfl

theorem EventHandler.advance_split (a b : Nat) (e : EventHandler) :
    EventHandler.advance (a + b) e = EventHandler.advance b (EventHandler.advance a e) := by
  induction a generalizing e with
  | zero => simp [EventHandler.advance]
  | succ n ih =>
    rw [show n + 1 + b = (n + b) + 1 by omega]
    show EventHandler.advance (n + b) e.tick = _
    rw [ih]
    rfl

theorem EventHandler.tick_idle_quiet (e : EventHandler) (h1 : 1 < e.idle_rem)
    (h2 : e.hover_rem = 0) :
    e.tick = { e with idle_rem := e.idle_rem - 1 } := by
  obtain ⟨d1, d2, d3, d4, d5, d6, d7, ir, it, hr, hd, lg⟩ := e
  simp only at h1 h2
  subst h2
  simp [EventHandler.tick, Nat.ne_of_gt h1]

theorem EventHandler.advance_idle_quiet (k : Nat) (e : EventHandler) (hk : k < e.idle_rem)
    (h2 : e.hover_rem = 0) :
    EventHandler.advance k e = { e with idle_rem := e.idle_rem - k } := by
  induction k generalizing e with
  | zero =>
    obtain ⟨d1, d2, d3, d4, d5, d6, d7, ir, it, hr, hd, lg⟩ := e
    rfl
  | succ n ih =>
    have h1 : 1 < e.idle_rem := by omega
    rw [show EventHandler.advance (n + 1) e = EventHandler.advance n e.tick from rfl,
        EventHandler.tick_idle_quiet e h1 h2,
        ih { e with idle_rem := e.idle_rem - 1 } (by simp; omega) (by simp [h2])]
    obtain ⟨d1, d2, d3, d4, d5, d6, d7, ir, it, hr, hd, lg⟩ := e
    simp only
    congr 1
    omega

theorem tick_fire (e : EventHandler) (h : e.idle_rem = 1) (h2 : e.hover_rem = 0) :
    e.tick = { e with idle_rem := e.idle_timeout_ms, log := e.log ++ [ESig.idle_timeout] } := by
  obtain ⟨d1, d2, d3, d4, d5, d6, d7, ir, it, hr, hd, lg⟩ := e
  simp only at h h2
  subst h h2
  simp [EventHandler.tick]

theorem tick_armed (L : List ESig) :
    EventHandler.tick { E_armed L with idle_rem := (E_armed L).idle_rem - 29999 } =
      E_armed (L ++ [ESig.idle_timeout]) := by
  rw [tick_fire _ (by norm_num [E_armed]) (by norm_num [E_armed])]
  rfl

theorem EventHandler.advance_one (e : EventHandler) : EventHandler.advance 1 e = e.tick := rfl

theorem idle_cycle (L : List ESig) :
    EventHandler.advance 30000 (E_armed L) = E_armed (L ++ [ESig.idle_timeout]) := by
  show EventHandler.advance (29999 + 1) (E_armed L) = _
  rw [EventHandler.advance_split,
      EventHandler.advance_idle_quiet 29999 (E_armed L) (by show (29999 : Nat) < 30000; omega) rfl,
      EventHandler.advance_one, tick_armed]

theorem idle_count (n : Nat) :
    EventHandler.advance (30000 * n) EventHandler.initial.start_idle_detection =
      E_armed (List.replicate n ESig.idle_timeout) := by
  induction n with
  | zero => rfl
  | succ n ih =>
    rw [show 30000 * (n + 1) = 30000 * n + 30000 by ring, EventHandler.advance_split, ih,
        idle_cycle, ← List.replicate_succ']

theorem count_idle_replicate (n : Nat) :
    count_idle_timeout (List.replicate n ESig.idle_timeout) = n := by
  induction n with
  | zero => rfl
  | succ n ih =>
    simp only [count_idle_timeout, List.replicate_succ, List.filter_cons] at ih ⊢
    simp_all [count_idle_timeout]

/-- C1 (amended): calling `feed_pet` while `is_feeding` is already true
and the Eat animation is current does not restart or extend the already
pending 3000 ms `_finish_feeding` countdown (existing entries of `shots`
are untouched) and does not re-trigger the Eat animation switch (no
`animation_changed` emission) — but, the source having no
"not already feeding" guard, it *does* append a second 3000 ms
`_finish_feeding` single-shot and a notification, so `feeding_finished`
is later emitted once per call instead of once per feeding. -/
theorem C1_feed_overlap_amended (s : PetController) (hf : s.is_feeding = true)
    (ha : s.animation_controller.current_state = .eat)
    (hr : s.animation_controller.running = true) :
    s.feed_pet = { s with sleepy_rem := 0, sleep_rem := 0,
                          shots := s.shots ++ [(3000, Shot.finish_feeding)],
                          log := s.log ++ [Sig.notification_triggered] } := by
  obtain ⟨⟨mv, cs, cm, rn⟩, cc, cr, fe, sy, sl, im, sh, lg⟩ := s
  simp only at hf ha hr
  subst hf ha hr
  cases cm <;>
    simp [PetController.feed_pet, PetController.reset_sleep_timers,
      PetController.start_sleep_timers, PetController.cswitch,
      AnimationController.switch_to_state, PetController.cstart,
      AnimationController.start_animation]

/-- C1 (witness): the amended statement evaluated at the state reached
right after `feed_pet` on a fresh controller. -/
theorem C1_feed_overlap_witness :
    F_feed.feed_pet = { F_feed with sleepy_rem := 0, sleep_rem := 0,
                                    shots := F_feed.shots ++ [(3000, Shot.finish_feeding)],
                                    log := F_feed.log ++ [Sig.notification_triggered] } :=
  C1_feed_overlap_amended F_feed rfl rfl rfl

/-- C1 (counterexample): feeding at 0 ms and again at 1000 ms yields two
`feeding_finished` emissions by 4000 ms, while a single feeding yields
one — the overlapping call does not leave the single-emission feeding
workflow unchanged. -/
theorem C1_counterexample :
    count_feeding_finished ((PetController.advance 3000
        ((PetController.advance 1000 PetController.initial.feed_pet).feed_pet)).log) = 2 ∧
    count_feeding_finished ((PetController.advance 3000 PetController.initial.feed_pet).log)
      = 1 := by
  constructor
  · rw [feed_init, PetController.advance_quiet 1000 F_feed (by decide), feed_feed,
        show (3000 : Nat) = 2000 + 1000 from rfl, PetController.advance_add, adv_feed2,
        adv_feed3]
    rfl
  · rw [feed_init, adv_feed_single]
    rfl

/-- C2 (amended): immediately after `_reset_sleep_timers` at most one of
the two sleep-cycle timers is pending, and none is pending when
`is_interaction_mode` or `is_feeding` holds; but this is not a global
invariant of the reachable states (see the counterexample). -/
theorem C2_sleep_timer_invariant_amended (s : PetController) :
    ¬(s.reset_sleep_timers.sleepy_rem ≠ 0 ∧ s.reset_sleep_timers.sleep_rem ≠ 0) ∧
    (s.is_interaction_mode = true ∨ s.is_feeding = true →
      s.reset_sleep_timers.sleepy_rem = 0 ∧ s.reset_sleep_timers.sleep_rem = 0) := by
  obtain ⟨ac, cc, cr, fe, sy, sl, im, sh, lg⟩ := s
  cases im <;> cases fe <;>
    simp [PetController.reset_sleep_timers, PetController.start_sleep_timers]

/-- C2 (witness): the amended statement applied to the
interaction-mode waypoint state. -/
theorem C2_sleep_timer_invariant_witness :
    D_drag1.reset_sleep_timers.sleepy_rem = 0 ∧ D_drag1.reset_sleep_timers.sleep_rem = 0 :=
  (C2_sleep_timer_invariant_amended D_drag1).2 (Or.inl rfl)

/-- C2 (counterexample): a reachable state with *both* sleep-cycle timers
pending — click 500 ms into the Sleepy animation; when the pending
`_return_to_idle_from_sleepy` single-shot fires 1500 ms later it arms
`sleep_timer` while the sleepy timer re-armed by the click is still
pending. -/
theorem C2_counterexample :
    (PetController.advance 1500 ((PetController.advance 500
        (PetController.advance 15000 PetController.initial)).on_click)).sleepy_rem ≠ 0 ∧
    (PetController.advance 1500 ((PetController.advance 500
        (PetController.advance 15000 PetController.initial)).on_click)).sleep_rem ≠ 0 := by
  rw [adv_init_sleepy, PetController.advance_quiet 500 S_sleepy (by decide),
      onclick_sleepy_shift, show (1500 : Nat) = 1000 + 500 from rfl,
      PetController.advance_add, adv_tclick, adv_tclick1]
  decide

/-- C3 (amended): the idle `QTimer` is *repeating*: with detection armed
and no activity at all, `idle_timeout` is emitted once per 30000 ms
period (`n` emissions after `30000 * n` ms), not exactly once; any
activity (`_update_activity`) restarts the countdown at
`idle_timeout_ms`. -/
theorem C3_idle_timer_repeats_amended (n : Nat) (e : EventHandler) :
    count_idle_timeout ((EventHandler.advance (30000 * n)
        EventHandler.initial.start_idle_detection).log) = n ∧
    e.update_activity.idle_rem = e.idle_timeout_ms := by
  refine ⟨?_, rfl⟩
  rw [idle_count n]
  exact count_idle_replicate n

/-- C3 (counterexample): with no activity whatsoever, 60000 ms after
arming idle detection `idle_timeout` has been emitted twice — the claim
says the second emission cannot happen without an intervening activity. -/
theorem C3_counterexample :
    count_idle_timeout ((EventHandler.advance 60000
        EventHandler.initial.start_idle_detection).log) = 2 := by
  rw [show (60000 : Nat) = 30000 * 2 from rfl, idle_count 2]
  rfl

/-- C4: sleep-cycle timing.  From the freshly constructed controller with
no interaction: at 15000 ms the animation is Sleepy; at 17000 ms it is
Idle again with `sleep_timer` armed at 15000 ms; at 32000 ms it is Sleep
and remains Sleep forever after (no pending countdown).  A click or a
drag-start at any time `k < 15000` cancels the pending chain: for the
following 15000 ms (in particular at the originally scheduled trigger
time) the animation is never Sleepy. -/
theorem C4_sleep_cycle_timing (k j n : Nat) (hk : k < 15000) (hj : j ≤ 15000) :
    (PetController.advance 15000 PetController.initial).animation_controller.current_state
        = .sleepy ∧
    (PetController.advance 17000 PetController.initial).animation_controller.current_state
        = .idle ∧
    (PetController.advance 17000 PetController.initial).sleep_rem = 15000 ∧
    (PetController.advance 32000 PetController.initial).animation_controller.current_state
        = .sleep ∧
    (PetController.advance (32000 + n)
        PetController.initial).animation_controller.current_state = .sleep ∧
    (PetController.advance j
        ((PetController.advance k PetController.initial).on_click)).animation_controller.current_state
        ≠ .sleepy ∧
    (PetController.advance j
        ((PetController.advance k PetController.initial).on_drag_start)).animation_controller.current_state
        ≠ .sleepy := by
  have h17 : PetController.advance 17000 PetController.initial = S_idle2 := by
    rw [show (17000 : Nat) = 15000 + 2000 from rfl, PetController.advance_add,
        adv_init_sleepy, adv_sleepy_idle2]
  have h32 : PetController.advance 32000 PetController.initial = S_sleep := by
    rw [show (32000 : Nat) = 17000 + 15000 from rfl, PetController.advance_add, h17,
        adv_idle2_sleep]
  refine ⟨by rw [adv_init_sleepy]; rfl, by rw [h17]; rfl, by rw [h17]; rfl,
    by rw [h32]; rfl, ?_, ?_, ?_⟩
  · rw [PetController.advance_add, h32, PetController.advance_fix n S_sleep rfl rfl rfl rfl]
    rfl
  · rw [adv_wait k hk, onclick_wait]
    rcases click_branch_state j hj with h | h <;> simp [h]
  · rw [adv_wait k hk, ondrag_wait, drag_branch_state j hj]
    simp

/-- C4 (witness): the timing statement at `k = 0`, `j = 15000`,
`n = 1`. -/
theorem C4_sleep_cycle_timing_witness :
    (PetController.advance 15000 PetController.initial).animation_controller.current_state
        = .sleepy ∧
    (PetController.advance 17000 PetController.initial).animation_controller.current_state
        = .idle ∧
    (PetController.advance 17000 PetController.initial).sleep_rem = 15000 ∧
    (PetController.advance 32000 PetController.initial).animation_controller.current_state
        = .sleep ∧
    (PetController.advance (32000 + 1)
        PetController.initial).animation_controller.current_state = .sleep ∧
    (PetController.advance 15000
        ((PetController.advance 0 PetController.initial).on_click)).animation_controller.current_state
        ≠ .sleepy ∧
    (PetController.advance 15000
        ((PetController.advance 0 PetController.initial).on_drag_start)).animation_controller.current_state
        ≠ .sleepy :=
  C4_sleep_cycle_timing 0 15000 1 (by decide) (by decide)

/-- C5 (amended): `switch_to_state` into a state with no registered movie
is a complete no-op: `current_state` is *not* updated (contrary to the
claim), `current_movie` is unchanged, and nothing is emitted. -/
theorem C5_switch_unavailable_amended (a : AnimationController) (st : AnimationState)
    (h : st ∉ a.movies) :
    AnimationController.switch_to_state st a = (a, []) := by
  unfold AnimationController.switch_to_state
  by_cases he : st = a.current_state
  · rw [if_pos he]
  · rw [if_neg he, if_neg h]

/-- C5 (witness): switching to Sleep on an animator whose `sleep.gif` was
missing at load time changes nothing. -/
theorem C5_switch_unavailable_witness :
    AnimationController.switch_to_state .sleep
        (AnimationController.initial [.idle, .move, .click, .eat, .sleepy]) =
      (AnimationController.initial [.idle, .move, .click, .eat, .sleepy], []) :=
  C5_switch_unavailable_amended _ _ (by decide)

/-- C5 (counterexample): with the Sleep resource missing at load time,
`switch_to_state(Sleep)` does *not* update `current_state` to Sleep,
contradicting the claim that `current` is updated. -/
theorem C5_counterexample :
    ¬((AnimationController.switch_to_state .sleep
        (AnimationController.initial [.idle, .move, .click, .eat, .sleepy])).1.current_state
      = .sleep) := by decide

/-- C6 (amended): when `st` has a registered movie and differs from the
current state, two consecutive `switch_to_state st` calls emit exactly
one `animation_changed` (the first call's); and for *any* animator and
state the second of two consecutive calls is a no-op that changes
nothing and emits nothing.  (When `st` equals the current state or has no
registered movie, the pair of calls emits zero signals, not one.) -/
theorem C6_switch_idempotent_amended (a b : AnimationController) (st t : AnimationState)
    (h1 : st ∈ a.movies) (h2 : st ≠ a.current_state) :
    (AnimationController.switch_to_state st a).2 = [st] ∧
    AnimationController.switch_to_state st (AnimationController.switch_to_state st a).1 =
      ((AnimationController.switch_to_state st a).1, []) ∧
    AnimationController.switch_to_state t (AnimationController.switch_to_state t b).1 =
      ((AnimationController.switch_to_state t b).1, []) := by
  have key : ∀ x : AnimationController, ∀ u : AnimationState,
      AnimationController.switch_to_state u (AnimationController.switch_to_state u x).1 =
        ((AnimationController.switch_to_state u x).1, []) := by
    intro x u
    by_cases he : u = x.current_state
    · simp [AnimationController.switch_to_state, he]
    · by_cases hm : u ∈ x.movies
      · simp [AnimationController.switch_to_state, he, hm]
      · simp [AnimationController.switch_to_state, he, hm]
  exact ⟨by simp [AnimationController.switch_to_state, h1, h2], key a st, key b t⟩

/-- C6 (witness): the amended statement on a fully loaded animator,
switching to Move twice. -/
theorem C6_switch_idempotent_witness :
    (AnimationController.switch_to_state .move (AnimationController.initial all_movies)).2 =
      [AnimationState.move] ∧
    AnimationController.switch_to_state .move
        (AnimationController.switch_to_state .move
          (AnimationController.initial all_movies)).1 =
      ((AnimationController.switch_to_state .move
          (AnimationController.initial all_movies)).1, []) ∧
    AnimationController.switch_to_state .eat
        (AnimationController.switch_to_state .eat
          (AnimationController.initial all_movies)).1 =
      ((AnimationController.switch_to_state .eat
          (AnimationController.initial all_movies)).1, []) :=
  C6_switch_idempotent_amended (AnimationController.initial all_movies)
    (AnimationController.initial all_movies) .move .eat (by decide) (by decide)

/-- C6 (counterexample): calling `switch_to_state(IDLE)` twice on a
freshly constructed, fully loaded animator yields *zero*
`animation_changed` emissions, not exactly one: the first call is
already a no-op because the animator starts at Idle. -/
theorem C6_counterexample :
    ¬(((AnimationController.switch_to_state .idle (AnimationController.initial all_movies)).2
        ++ (AnimationController.switch_to_state .idle
            (AnimationController.switch_to_state .idle
              (AnimationController.initial all_movies)).1).2).length = 1) := by decide

/-- C7: every reminder firing emits `messages[current_index]` and then
advances the index modulo the list length, so the index stays in
`[0, len)`; with a 3-message list five firings emit indices
`[0, 1, 2, 0, 1]` (messages `[a, b, c, a, b]`); and in
`ReminderScheduler` a firing of one named reminder advances only that
reminder's own index — other names' state is untouched. -/
theorem C7_reminder_cycle (msgs : List String) (i : Nat) (h : i < msgs.length)
    (a b c : String) (sc : ReminderScheduler) (nm other : String) (hno : other ≠ nm)
    (r : Reminder) (hr : sc nm = some r) :
    (on_reminder msgs i).2 < msgs.length ∧
    (on_reminder msgs i).1 = msgs.getD i "" ∧
    reminder_run [a, b, c] 0 5 = [a, b, c, a, b] ∧
    reminder_indices 3 0 5 = [0, 1, 2, 0, 1] ∧
    (trigger_reminder nm sc).1 other = sc other ∧
    (trigger_reminder nm sc).1 nm =
      some { r with current_index := (r.current_index + 1) % r.messages.length } ∧
    (trigger_reminder nm sc).2 = some (r.title, r.messages.getD r.current_index "") := by
  refine ⟨?_, rfl, by simp [reminder_run, on_reminder], rfl, ?_, ?_, ?_⟩
  · show (i + 1) % msgs.length < msgs.length
    exact Nat.mod_lt _ (by omega)
  · simp [trigger_reminder, hr, hno]
  · simp [trigger_reminder, hr]
  · simp [trigger_reminder, hr]

/-- C7 (witness): the reminder statement at a concrete 3-message list,
index 0, and a two-reminder scheduler map. -/
theorem C7_reminder_cycle_witness :
    (on_reminder ["m1", "m2", "m3"] 0).2 < (["m1", "m2", "m3"] : List String).length ∧
    (on_reminder ["m1", "m2", "m3"] 0).1 = (["m1", "m2", "m3"] : List String).getD 0 "" ∧
    reminder_run ["x", "y", "z"] 0 5 = ["x", "y", "z", "x", "y"] ∧
    reminder_indices 3 0 5 = [0, 1, 2, 0, 1] ∧
    (trigger_reminder "hydration"
        (fun n => if n = "hydration" then some ⟨"t", ["u", "v"], 30, 0⟩ else none)).1
        "posture" =
      (fun n => if n = "hydration" then some (⟨"t", ["u", "v"], 30, 0⟩ : Reminder)
       else none) "posture" ∧
    (trigger_reminder "hydration"
        (fun n => if n = "hydration" then some ⟨"t", ["u", "v"], 30, 0⟩ else none)).1
        "hydration" =
      some { (⟨"t", ["u", "v"], 30, 0⟩ : Reminder) with
             current_index := (0 + 1) % (["u", "v"] : List String).length } ∧
    (trigger_reminder "hydration"
        (fun n => if n = "hydration" then some ⟨"t", ["u", "v"], 30, 0⟩ else none)).2 =
      some ("t", (["u", "v"] : List String).getD 0 "") :=
  C7_reminder_cycle ["m1", "m2", "m3"] 0 (by decide) "x" "y" "z"
    (fun n => if n = "hydration" then some ⟨"t", ["u", "v"], 30, 0⟩ else none)
    "hydration" "posture" (by decide) ⟨"t", ["u", "v"], 30, 0⟩ (by simp)

/-- C8: config round-trip.  Pushing `{pet_size: 200, sound_enabled: false}`
onto a working config, saving, and reloading yields a map whose
`pet_size` is 200 and `sound_enabled` is false, while every other key
keeps its prior value (falling back to the default when the prior map
lacks it); the reloaded orchestrator working copy has the sound flag
off.  In general, loading preserves every key present in the stored file
(unknown ones included), keys missing from the file fall back to the
defaults, and a missing or malformed file yields the full default set. -/
theorem C8_config_round_trip (c m m2 : Config) (k km km2 : String) (v : ConfigValue)
    (h1 : k ≠ "pet_size") (h2 : k ≠ "sound_enabled")
    (hm : m km = some v) (hm2 : m2 km2 = none) :
    load_config (save_config (dict_update c example_update)) ("pet_size")
        = some (ConfigValue.int 200) ∧
    load_config (save_config (dict_update c example_update)) ("sound_enabled")
        = some (ConfigValue.bool false) ∧
    load_config (save_config (dict_update c example_update)) k
        = dict_update default_config c k ∧
    (load_settings (load_config (save_config (dict_update c example_update)))).2.2
        = false ∧
    load_config (some m) km = some v ∧
    load_config (some m2) km2 = default_config km2 ∧
    load_config none = default_config := by
  have hex : example_update k = none := by simp [example_update, h1, h2]
  refine ⟨?_, ?_, ?_, ?_, ?_, ?_, rfl⟩
  · simp [load_config, save_config, dict_update, example_update]
  · simp [load_config, save_config, dict_update, example_update]
  · simp only [load_config, save_config, dict_update, hex]
  · simp [load_settings, config_get_bool, load_config, save_config, dict_update,
      example_update]
  · simp [load_config, dict_update, hm]
  · simp [load_config, dict_update, hm2]

/-- C8 (witness): the round-trip statement with the defaults as the prior
working copy, checked at the untouched key `font_color`, a stored map
containing only an unknown key, and a stored map missing
`reminder_interval`. -/
theorem C8_config_round_trip_witness :
    load_config (save_config (dict_update default_config example_update)) ("pet_size")
        = some (ConfigValue.int 200) ∧
    load_config (save_config (dict_update default_config example_update)) ("sound_enabled")
        = some (ConfigValue.bool false) ∧
    load_config (save_config (dict_update default_config example_update)) ("font_color")
        = dict_update default_config default_config ("font_color") ∧
    (load_settings (load_config (save_config
        (dict_update default_config example_update)))).2.2 = false ∧
    load_config (some (fun q => if q = "mystery" then some (ConfigValue.int 7) else none))
        ("mystery") = some (ConfigValue.int 7) ∧
    load_config (some (fun _ => none)) ("reminder_interval")
        = default_config ("reminder_interval") ∧
    load_config none = default_config :=
  C8_config_round_trip default_config
    (fun q => if q = "mystery" then some (ConfigValue.int 7) else none) (fun _ => none)
    "font_color" "mystery" "reminder_interval" (ConfigValue.int 7)
    (by decide) (by decide) (by simp) rfl

/-- C9: immediately after `AnimationController` construction the current
state is Idle but `current_movie` is `None` whatever resources loaded, so
the constructor's `switch_to_state(IDLE)` is a no-op (state unchanged,
nothing emitted, `current_movie` stays `None`) and `start_animation()`
does nothing; accordingly the fully constructed `PetController` still has
`current_movie = None` and an empty emission log. -/
theorem C9_initial_idle_noop (movies : List AnimationState) :
    (AnimationController.initial movies).current_state = .idle ∧
    (AnimationController.initial movies).current_movie = none ∧
    AnimationController.switch_to_state .idle (AnimationController.initial movies) =
      (AnimationController.initial movies, []) ∧
    AnimationController.start_animation (AnimationController.initial movies) =
      AnimationController.initial movies ∧
    PetController.initial.animation_controller.current_movie = none ∧
    PetController.initial.log = [] := by
  refine ⟨rfl, rfl, ?_, rfl, rfl, rfl⟩
  simp [AnimationController.switch_to_state, AnimationController.initial]

/-- C10: a double-click classification does not consume the stored press
record: after a press at `p`/`t1`, presses at the same position at `t2`
and `t3`, both within 300 ms of `t1`, each emit `double_click` (the
stored record still holds `t1` and `p` after the second press), so the
run of three presses emits click, double_click, double_click. -/
theorem C10_triple_press_double_click (p : Int × Int) (t1 t2 t3 : Int)
    (h2 : t2 - t1 < 300) (h3 : t3 - t1 < 300) :
    (EventHandler.handle_mouse_press .left p t2
        (EventHandler.handle_mouse_press .left p t1 EventHandler.initial)).last_click_time
        = t1 ∧
    (EventHandler.handle_mouse_press .left p t2
        (EventHandler.handle_mouse_press .left p t1 EventHandler.initial)).last_click_position
        = some p ∧
    (EventHandler.handle_mouse_press .left p t3
      (EventHandler.handle_mouse_press .left p t2
        (EventHandler.handle_mouse_press .left p t1 EventHandler.initial))).log =
      [ESig.click_detected p, ESig.double_click p, ESig.double_click p] := by
  refine ⟨?_, ?_, ?_⟩ <;>
    simp [EventHandler.handle_mouse_press, EventHandler.update_activity,
      EventHandler.initial, dist_sq, h2, h3]

/-- C10 (witness): the triple-press statement at the origin with presses
at 0, 100 and 200 ms. -/
theorem C10_triple_press_double_click_witness :
    (EventHandler.handle_mouse_press .left (0, 0) 100
        (EventHandler.handle_mouse_press .left (0, 0) 0 EventHandler.initial)).last_click_time
        = 0 ∧
    (EventHandler.handle_mouse_press .left (0, 0) 100
        (EventHandler.handle_mouse_press .left (0, 0) 0
          EventHandler.initial)).last_click_position = some (0, 0) ∧
    (EventHandler.handle_mouse_press .left (0, 0) 200
      (EventHandler.handle_mouse_press .left (0, 0) 100
        (EventHandler.handle_mouse_press .left (0, 0) 0 EventHandler.initial))).log =
      [ESig.click_detected (0, 0), ESig.double_click (0, 0), ESig.double_click (0, 0)] :=
  C10_triple_press_double_click (0, 0) 0 100 200 (by decide) (by decide)
